import Mathlib

/-!
Verification development for the CCTV live-stream monitoring core of this
repository: `cctv_monitor/core/live.py` (the Django-backed variant) and its
stand-alone script variant `live.py`.  The data model follows
`cctv_monitor/core/models.py`.

Modelling conventions:
* Database rows are plain structures; timestamps are naturals (`0` is used as
  the clock value inside the loop model, where no claim depends on wall time).
* The monitoring loop interacts with the outside world (stream resolution,
  the ffmpeg capture process, the OpenAI inference service); those interactions
  are driven by an explicit environment (`Env`) scripting the outcome of each
  external step, and the loop emits a trace of observable events (`Ev`):
  log appends, session-row writes, inference requests, sleeps and process
  signals, in program order.
* Python's `try`/`except`/`finally` is encoded by explicit composition: the
  body returns an optional raised exception message, the handler and the
  finaliser are sequenced after it.
* `str.lower` is modelled by `Char.toLower`, which lower-cases exactly the
  ASCII range; the phrases the code searches for are ASCII.
-/

namespace CCTV

/-- Session lifecycle states (`MonitoringSession.Status` in
`cctv_monitor/core/models.py`). -/
inductive Status
  | pending
  | running
  | completed
  | error
deriving DecidableEq, Repr

/-- The columns of `MonitoringSession` that the monitoring loop reads or
writes (`cctv_monitor/core/models.py`).  `started_at`, `finished_at`,
`created_at` and `output_folder` are set but never read by the code under
study and are omitted; `updated_at` is kept because `append_log` bumps it. -/
structure Session where
  youtubeUrl : String
  goal : String
  streamUrl : String
  status : Status
  eventDetected : Bool
  lastFrameNumber : Nat
  errorMessage : String
  updatedAt : Nat
deriving DecidableEq, Repr

/-- One `MonitoringLog` row (`cctv_monitor/core/models.py`); rows are listed
in creation order, which is the `ordering = ["id"]` order. -/
structure LogEntry where
  frameNumber : Option Nat
  message : String
  isAlert : Bool
deriving DecidableEq, Repr

/-- Effect of `append_log` (`cctv_monitor/core/live.py`, lines 96-103) on the
session row: when `frame_number` is given, the guarded queryset update
`filter(pk=…, last_frame_number__lt=frame_number).update(...)` bumps
`last_frame_number` and `updated_at` only when the stored value is strictly
smaller; otherwise only `updated_at` is bumped. -/
def appendLogSession (s : Session) (now : Nat) (frameNumber : Option Nat) : Session :=
  match frameNumber with
  | some n =>
      if s.lastFrameNumber < n then
        { s with lastFrameNumber := n, updatedAt := now }
      else
        s
  | none => { s with updatedAt := now }

/-- The database state `append_log` touches: the session row and its log
rows in creation order. -/
structure Store where
  session : Session
  logs : List LogEntry
deriving DecidableEq, Repr

/-- `append_log` (`cctv_monitor/core/live.py`, lines 82-105): the
`MonitoringLog` row is always created, then the session row is updated as in
`appendLogSession`. -/
def appendLog (st : Store) (now : Nat) (message : String)
    (frameNumber : Option Nat) (isAlert : Bool) : Store :=
  { session := appendLogSession st.session now frameNumber,
    logs := st.logs ++ [⟨frameNumber, message, isAlert⟩] }

/-- A sequence of `append_log` calls, each carrying its clock value, message,
optional frame number and alert flag. -/
def appendLogSeq (st : Store) (calls : List (Nat × String × Option Nat × Bool)) : Store :=
  calls.foldl (fun acc c => appendLog acc c.1 c.2.1 c.2.2.1 c.2.2.2) st

/-- ASCII lower-casing of a character list (`reply_text.lower()`). -/
def lowerChars (l : List Char) : List Char := l.map Char.toLower

/-- `needle` occurs at the head of `hay`. -/
def startsWithCh : List Char → List Char → Bool
  | [], _ => true
  | _ :: _, [] => false
  | a :: as, b :: bs => a == b && startsWithCh as bs

/-- Substring containment, as Python's `in` operator on strings. -/
def containsSub (needle : List Char) : List Char → Bool
  | [] => startsWithCh needle []
  | b :: bs => startsWithCh needle (b :: bs) || containsSub needle bs

/-- The event-detection decision (`cctv_monitor/core/live.py`, line 244):
`"yes" in reply_text.lower() or "event detected" in reply_text.lower()`. -/
def decideEvent (reply : String) : Bool :=
  containsSub ("yes").data (lowerChars reply.data) ||
    containsSub ("event detected").data (lowerChars reply.data)

/-- A turn of the in-memory conversation sent to the inference service.
A user turn carries its frame index (standing for the attached image) and its
instruction text. -/
inductive Turn
  | system (content : String)
  | user (frameIndex : Nat) (prompt : String)
deriving DecidableEq, Repr

/-- The system turn content (`cctv_monitor/core/live.py`, lines 143-152). -/
def systemContent (goal : String) : String :=
  "You are a CCTV image event detection assistant. " ++
    "You analyze a sequence of frames from a fixed camera and detect when a specified event happens. " ++
    "Goal: " ++ goal

/-- The per-frame instruction text (`cctv_monitor/core/live.py`,
lines 189-196), chosen by the `first_frame_sent` flag. -/
def promptText (firstFrameSent : Bool) : String :=
  if firstFrameSent then
    "Here is the next frame in the sequence. Has the event happened yet compared to previous frames?"
  else
    "Here is the first frame. Watch subsequent frames and tell me when the event happens."

/-- The prune step (`cctv_monitor/core/live.py`, lines 210-211):
`if len(conversation) > 3: conversation = [conversation[0]] + conversation[-2:]`.
(`conversation[0]` is `take 1`; `conversation[-2:]` is `drop (len - 2)`,
which agree with Python whenever the branch is taken, i.e. `len > 3`.) -/
def pruneWindow (conv : List Turn) : List Turn :=
  if 3 < conv.length then conv.take 1 ++ conv.drop (conv.length - 2) else conv

/-- One iteration's effect on the conversation window
(`cctv_monitor/core/live.py`, lines 198-211): append the user turn for frame
`i`, then prune. -/
def appendFrameTurn (conv : List Turn) (i : Nat) (firstFrameSent : Bool) : List Turn :=
  pruneWindow (conv ++ [Turn.user i (promptText firstFrameSent)])

/-- The user turn the loop builds for frame `k`: `first_frame_sent` is false
exactly while frame 1 is being processed. -/
def userTurn (k : Nat) : Turn := Turn.user k (promptText (k != 1))

/-- The conversation window after appending frames `1, …, n` in order,
starting from the initial `[system]` window. -/
def runWindow (goal : String) (n : Nat) : List Turn :=
  (List.range n).foldl
    (fun conv k => appendFrameTurn conv (k + 1) ((k + 1) != 1))
    [Turn.system (systemContent goal)]

/-- `MonitorRegistry` (`cctv_monitor/core/live.py`, lines 292-315): the ids
that currently have a registered live monitoring thread.  `start_if_needed`
runs entirely under `self._lock`, and the pop in `_run_and_cleanup`'s
`finally` takes the same lock, so each is one atomic step of this model. -/
structure Registry where
  active : List Nat
deriving DecidableEq, Repr

/-- `start_if_needed` (lines 297-308): under the lock, if a live thread for
`sid` is registered do nothing, otherwise register and start one.  The Bool
result records whether a new thread (and hence exactly one capture process
start) was launched. -/
def startIfNeeded (reg : Registry) (sid : Nat) : Registry × Bool :=
  if sid ∈ reg.active then (reg, false)
  else (⟨sid :: reg.active⟩, true)

/-- The `finally` of `_run_and_cleanup` (lines 313-315): on loop exit through
any path, pop the session id under the lock. -/
def runAndCleanupPop (reg : Registry) (sid : Nat) : Registry :=
  ⟨reg.active.erase sid⟩

/-- `FRAME_INTERVAL_SECONDS` (`cctv_monitor/core/live.py`, line 24). -/
def FRAME_INTERVAL_SECONDS : Nat := 6

/-- `FRAME_TIMEOUT_SECONDS` (`cctv_monitor/core/live.py`, line 25). -/
def FRAME_TIMEOUT_SECONDS : Nat := 60

/-- How the inner wait for the next frame (lines 161-177) ends. -/
inductive WaitEnd
  | found
  | procDied
  | timedOut
deriving DecidableEq, Repr

/-- Scripted external behaviour for one iteration of the frame loop:
how the wait for the frame file ends, whether the file is there at the
re-check on line 179 (it always is when the wait found it), the `str(exc)`
texts of the `RateLimitError`s hit before the inference call settles, and the
settled outcome of the call — a reply text, or the message of any
non-throttling exception it raises. -/
structure FrameScript where
  wait : WaitEnd
  existsAfter : Bool
  throttles : List String
  infer : Except String String
deriving Repr

/-- The value of `frame_path.exists()` at the re-check on line 179. -/
def FrameScript.fileExists (s : FrameScript) : Bool :=
  s.wait == WaitEnd.found || s.existsAfter

/-- Scripted behaviour of the external world for one run of
`_monitoring_loop`: the outcome of `get_openai_client` (line 127), of
`get_live_stream_url` (line 128), the per-frame behaviour in order (after
the list runs out no frame ever appears again), and whether ffmpeg exits
within the 5-second grace of `ffmpeg_proc.wait(timeout=5)` after
`terminate()` (lines 282-286). -/
structure Env where
  clientOk : Except String Unit
  resolve : Except String String
  scripts : List FrameScript
  stopGrace : Bool
deriving Repr

/-- Observable events of one run, in program order: `append_log` calls,
session-row status writes, the stream-url write, the ffmpeg launch,
inference requests, backoff sleeps and process signals. -/
inductive Ev
  | log (frameNumber : Option Nat) (message : String) (isAlert : Bool)
  | setStatus (st : Status)
  | setStream (url : String)
  | startProc
  | request
  | sleep (seconds : Nat)
  | terminate
  | waitProc (timeoutSeconds : Nat)
  | kill
deriving DecidableEq, Repr

def fetchingMsg : String := "Fetching live stream URL…"

def fetchedMsg : String := "Stream URL fetched."

def launchingMsg : String := "Launching ffmpeg frame capture…"

def startedMsg : String := "Monitoring started."

def endedEarlyMsg : String := "ffmpeg process ended before creating the next frame."

def timedOutMsg : String := "Timed out waiting for the next frame."

def processingMsg (i : Nat) : String := s!"Processing frame {i}…"

def analyzingMsg (i : Nat) : String := s!"Analyzing frame {i} with GPT…"

def rateLimitMsg (e : String) : String := s!"Rate limit hit ({e}). Retrying shortly…"

def gptMsg (r : String) : String := s!"GPT: {r}"

def eventDetectedMsg : String := "Event detected!"

def completedMsg : String := "Monitoring completed without detecting the event."

def failedMsg (e : String) : String := s!"Monitoring failed: {e}"

def stoppedMsg : String := "Monitoring stopped."

/-- Result of the `try` body: events emitted, session row, whether ffmpeg is
still running, and the message of a raised, uncaught exception if any. -/
structure FLOut where
  evs : List Ev
  sess : Session
  procAlive : Bool
  raised : Option String
deriving Repr

/-- Prepend already-emitted events to a body result. -/
def withPre (pre : List Ev) (o : FLOut) : FLOut :=
  ⟨pre ++ o.evs, o.sess, o.procAlive, o.raised⟩

/-- The retry loop around the inference request (lines 221-235): issue the
request; each `RateLimitError` appends a log entry for the current frame,
sleeps the fixed 2-second backoff and retries; the first non-throttled
attempt ends the loop (its outcome — reply or raised exception — is read off
the script by the caller). -/
def inferRetry (i : Nat) : List String → Session → List Ev × Session
  | [], sess => ([Ev.request], sess)
  | e :: ts, sess =>
      (Ev.request :: Ev.log (some i) (rateLimitMsg e) false :: Ev.sleep 2 ::
          (inferRetry i ts (appendLogSession sess 0 (some i))).1,
        (inferRetry i ts (appendLogSession sess 0 (some i))).2)

/-- Log events of the inner wait (lines 162-177): nothing when the frame
appeared; one log entry naming the cause when ffmpeg exited or the
60-second deadline passed. -/
def waitEvs (w : WaitEnd) (i : Nat) : List Ev :=
  match w with
  | WaitEnd.found => []
  | WaitEnd.procDied => [Ev.log (some i) endedEarlyMsg false]
  | WaitEnd.timedOut => [Ev.log (some i) timedOutMsg false]

/-- The message of the inner wait's log entry when the wait ended without
the frame: the `poll()` branch's text when ffmpeg exited, otherwise the
timeout branch's text. -/
def waitEndMsg (w : WaitEnd) : String :=
  match w with
  | WaitEnd.procDied => endedEarlyMsg
  | _ => timedOutMsg

/-- Session effect of the inner wait's log entry, if one was appended. -/
def waitSess (w : WaitEnd) (i : Nat) (sess : Session) : Session :=
  match w with
  | WaitEnd.found => sess
  | WaitEnd.procDied => appendLogSession sess 0 (some i)
  | WaitEnd.timedOut => appendLogSession sess 0 (some i)

/-- Session effect of the exhaustion exit (lines 261-269): the `COMPLETED`
status update (which does not touch `event_detected`), then the completion
log entry. -/
def completeSess (sess : Session) : Session :=
  appendLogSession { sess with status := Status.completed, updatedAt := 0 } 0 none

/-- Session effect of the detection exit (lines 251-256): sets `COMPLETED`
and `event_detected = True`; the alert log entry was appended just before. -/
def detectSess (sess : Session) : Session :=
  { sess with status := Status.completed, eventDetected := true, updatedAt := 0 }

/-- The `while True` frame loop (lines 157-269), script-driven.  `i` is
`frame_index`, `first` is `first_frame_sent`, `conv` the in-memory
conversation, `alive` whether ffmpeg still runs.  Once the scripts run out no
frame ever appears again, so the next wait ends with no file — immediately
via the `poll()` check if ffmpeg already exited, otherwise via the 60-second
timeout — and the loop exits through the exhaustion path. -/
def frameLoop : List FrameScript → Nat → Bool → List Turn → Session → Bool → FLOut
  | [], i, _first, _conv, sess, alive =>
      ⟨Ev.log (some i) (if alive then timedOutMsg else endedEarlyMsg) false ::
          Ev.setStatus Status.completed :: [Ev.log none completedMsg false],
        completeSess (appendLogSession sess 0 (some i)), alive, none⟩
  | s :: rest, i, first, conv, sess, alive =>
      if s.fileExists then
        match s.infer with
        | Except.error e =>
            ⟨waitEvs s.wait i ++
                Ev.log (some i) (processingMsg i) false ::
                  Ev.log (some i) (analyzingMsg i) false ::
                    (inferRetry i s.throttles
                        (appendLogSession (appendLogSession (waitSess s.wait i sess) 0 (some i)) 0
                          (some i))).1,
              (inferRetry i s.throttles
                  (appendLogSession (appendLogSession (waitSess s.wait i sess) 0 (some i)) 0
                    (some i))).2,
              (if s.wait == WaitEnd.procDied then false else alive), some e⟩
        | Except.ok reply =>
            if decideEvent reply then
              ⟨waitEvs s.wait i ++
                  Ev.log (some i) (processingMsg i) false ::
                    Ev.log (some i) (analyzingMsg i) false ::
                      ((inferRetry i s.throttles
                            (appendLogSession (appendLogSession (waitSess s.wait i sess) 0 (some i))
                              0 (some i))).1 ++
                        [Ev.log (some i) (gptMsg reply) false,
                          Ev.log (some i) eventDetectedMsg true, Ev.setStatus Status.completed]),
                detectSess
                  (appendLogSession
                    (appendLogSession
                      (inferRetry i s.throttles
                          (appendLogSession
                            (appendLogSession (waitSess s.wait i sess) 0 (some i)) 0 (some i))).2
                      0 (some i))
                    0 (some i)),
                (if s.wait == WaitEnd.procDied then false else alive), none⟩
            else
              withPre
                (waitEvs s.wait i ++
                  Ev.log (some i) (processingMsg i) false ::
                    Ev.log (some i) (analyzingMsg i) false ::
                      ((inferRetry i s.throttles
                            (appendLogSession (appendLogSession (waitSess s.wait i sess) 0 (some i))
                              0 (some i))).1 ++
                        [Ev.log (some i) (gptMsg reply) false]))
                (frameLoop rest (i + 1) true (appendFrameTurn conv i first)
                  (appendLogSession
                    (inferRetry i s.throttles
                        (appendLogSession (appendLogSession (waitSess s.wait i sess) 0 (some i)) 0
                          (some i))).2
                    0 (some i))
                  (if s.wait == WaitEnd.procDied then false else alive))
      else
        ⟨waitEvs s.wait i ++
            Ev.setStatus Status.completed :: [Ev.log none completedMsg false],
          completeSess (waitSess s.wait i sess),
          (if s.wait == WaitEnd.procDied then false else alive), none⟩

/-- The `finally` cleanup of the capture process (lines 281-286):
`if ffmpeg_proc and ffmpeg_proc.poll() is None: terminate(); wait(timeout=5)`
and `kill()` on `TimeoutExpired`.  Returns the emitted signals and whether
the process is still running afterwards. -/
def stopProc (started alive grace : Bool) : List Ev × Bool :=
  if started && alive then
    if grace then ([Ev.terminate, Ev.waitProc 5], false)
    else ([Ev.terminate, Ev.waitProc 5, Ev.kill], false)
  else ([], started && alive)

/-- The initial `RUNNING` update (lines 114-121) — it clears the error
message and the detection flag — followed by the session effect of the
"Fetching live stream URL…" log entry (line 123). -/
def initSess (sess0 : Session) : Session :=
  appendLogSession
    { sess0 with
        status := Status.running, errorMessage := "", eventDetected := false, updatedAt := 0 }
    0 none

/-- Events of the pre-loop stretch of the `try` body (lines 128-141):
stream-url write, its log entry, the launch log entry, the ffmpeg launch,
the started log entry. -/
def preLoopEvs (url : String) : List Ev :=
  [Ev.setStream url, Ev.log none fetchedMsg false, Ev.log none launchingMsg false,
    Ev.startProc, Ev.log none startedMsg false]

/-- Session effect of the pre-loop stretch: the stream-url update and the
three session-level log entries. -/
def preLoopSess (sessF : Session) (url : String) : Session :=
  appendLogSession
    (appendLogSession (appendLogSession { sessF with streamUrl := url, updatedAt := 0 } 0 none) 0
      none)
    0 none

/-- The `try` body (lines 126-269): obtain the client, resolve the stream
URL (either may raise, in which case ffmpeg was never started), then record
the URL, launch ffmpeg and run the frame loop.  The Bool is whether ffmpeg
was started. -/
def tryBlock (env : Env) (sessF : Session) (goal : String) : Bool × FLOut :=
  match env.clientOk with
  | Except.error e => (false, ⟨[], sessF, false, some e⟩)
  | Except.ok _ =>
    match env.resolve with
    | Except.error e => (false, ⟨[], sessF, false, some e⟩)
    | Except.ok url =>
        (true,
          withPre (preLoopEvs url)
            (frameLoop env.scripts 1 false [Turn.system (systemContent goal)]
              (preLoopSess sessF url) true))

/-- The `except Exception` handler (lines 271-278): on a raised exception,
write the `ERROR` status with the exception's text and append the failure
log entry; otherwise pass the body's outcome through. -/
def handledPart (env : Env) (sess0 : Session) : List Ev × Session :=
  match (tryBlock env (initSess sess0) sess0.goal).2.raised with
  | none =>
      ((tryBlock env (initSess sess0) sess0.goal).2.evs,
        (tryBlock env (initSess sess0) sess0.goal).2.sess)
  | some e =>
      ((tryBlock env (initSess sess0) sess0.goal).2.evs ++
          [Ev.setStatus Status.error, Ev.log none (failedMsg e) false],
        appendLogSession
          { (tryBlock env (initSess sess0) sess0.goal).2.sess with
              status := Status.error, errorMessage := e, updatedAt := 0 }
          0 none)

/-- Full run of one monitoring run: trace of events, final session row and
whether the capture process is still running at the end. -/
structure RunResult where
  evs : List Ev
  sess : Session
  procAlive : Bool
deriving Repr

/-- `_monitoring_loop` (`cctv_monitor/core/live.py`, lines 108-289): the
initial `RUNNING` update and "Fetching…" log, then the `try` body, the
`except` handler, and the unconditional `finally` — stop ffmpeg if it is
still running, append the final "Monitoring stopped." log entry. -/
def monitoringLoop (env : Env) (sess0 : Session) : RunResult :=
  ⟨Ev.setStatus Status.running :: Ev.log none fetchingMsg false ::
      ((handledPart env sess0).1 ++
        (stopProc (tryBlock env (initSess sess0) sess0.goal).1
            (tryBlock env (initSess sess0) sess0.goal).2.procAlive env.stopGrace).1 ++
        [Ev.log none stoppedMsg false]),
    appendLogSession (handledPart env sess0).2 0 none,
    (stopProc (tryBlock env (initSess sess0) sess0.goal).1
        (tryBlock env (initSess sess0) sess0.goal).2.procAlive env.stopGrace).2⟩

/-- Predicate: the event is an `append_log` write. -/
def isLogEv : Ev → Bool
  | Ev.log _ _ _ => true
  | _ => false

/-- Predicate: the event is a session-status write. -/
def isStatusEv : Ev → Bool
  | Ev.setStatus _ => true
  | _ => false

/-- Predicate: the event writes a terminal (`completed` or `error`) status. -/
def isTerminalEv : Ev → Bool
  | Ev.setStatus Status.completed => true
  | Ev.setStatus Status.error => true
  | _ => false

/-- Predicate: the event is an inference request. -/
def isRequestEv : Ev → Bool
  | Ev.request => true
  | _ => false

/-- The events after the first terminal status write, if there is one. -/
def afterTerminal : List Ev → Option (List Ev)
  | [] => none
  | e :: rest => if isTerminalEv e then some rest else afterTerminal rest

/-- An event that the loop may emit after the terminal status write:
process-cleanup signals, and session-level (frame-less, non-alert) log
entries — the closing narration. -/
def closingEv : Ev → Bool
  | Ev.log none _ false => true
  | Ev.terminate => true
  | Ev.waitProc _ => true
  | Ev.kill => true
  | _ => false

/-- Whether some log append occurs after a terminal status write. -/
def logAfterTerminal (evs : List Ev) : Bool :=
  match afterTerminal evs with
  | some t => t.any isLogEv
  | none => false

/-- Predicate: if the event is a backoff sleep, it sleeps exactly the fixed
2 seconds. -/
def sleepTwoOk : Ev → Bool
  | Ev.sleep s => s == 2
  | _ => true

/-- A cleanly processed frame script: the file was there, the inference call
settled on a reply, and the reply did not signal the event. -/
def goodFrame (s : FrameScript) : Prop :=
  s.fileExists = true ∧ ∃ r, s.infer = Except.ok r ∧ decideEvent r = false

/-- A concrete pending session used by counterexamples and witnesses. -/
def sessEx : Session := ⟨"y", "g", "", Status.pending, false, 0, "", 0⟩

/-- A concrete store whose session already recorded frame 5. -/
def storeEx : Store := ⟨⟨"y", "g", "", Status.running, false, 5, "", 0⟩, []⟩

/-- A concrete already-completed session (for the resumption counterexample). -/
def sessDone : Session := ⟨"y", "g", "u", Status.completed, true, 3, "", 7⟩

/-- A concrete environment: resolution succeeds and no frame ever appears. -/
def envEx : Env := ⟨Except.ok (), Except.ok ("u"), [], true⟩

/-- A concrete environment for the exhaustion witness: frame 1 is processed
with a non-detecting reply, then the wait for frame 2 times out. -/
def envSix : Env :=
  ⟨Except.ok (), Except.ok ("u"),
    [⟨WaitEnd.found, true, [], Except.ok ("no")⟩,
      ⟨WaitEnd.timedOut, false, [], Except.ok ("")⟩], true⟩

end CCTV

namespace CCTV

theorem startsWithCh_iff (n : List Char) : ∀ h : List Char,
    startsWithCh n h = true ↔ n <+: h := by
  induction n with
  | nil => intro h; simp [startsWithCh]
  | cons a as ih =>
    intro h
    cases h with
    | nil => simp [startsWithCh]
    | cons b bs =>
      simp [startsWithCh, Bool.and_eq_true, beq_iff_eq, List.cons_prefix_cons, ih]

theorem containsSub_iff (n : List Char) : ∀ h : List Char,
    containsSub n h = true ↔ n <:+: h := by
  intro h
  induction h with
  | nil =>
    cases n <;> simp [containsSub, startsWithCh]
  | cons b bs ih =>
    simp [containsSub, Bool.or_eq_true, startsWithCh_iff, ih, List.infix_cons_iff]

theorem runWindow_succ (g : String) (n : Nat) :
    runWindow g (n + 1) = appendFrameTurn (runWindow g n) (n + 1) ((n + 1) != 1) := by
  simp [runWindow, List.range_succ, List.foldl_append]

theorem runWindow_ge_two (g : String) : ∀ n, 2 ≤ n →
    runWindow g n = [Turn.system (systemContent g), userTurn (n - 1), userTurn n] := by
  intro n hn
  induction n, hn using Nat.le_induction with
  | base => rfl
  | succ n hn ih =>
      rw [runWindow_succ, ih]
      have h1 : ((n : Nat) + 1) - 1 = n := by omega
      simp only [appendFrameTurn, pruneWindow, userTurn, h1]
      simp

theorem range_drop_two : ∀ m : Nat, (List.range (m + 2)).drop m = [m, m + 1] := by
  intro m
  induction m with
  | zero => rfl
  | succ m ih =>
      have h : m + 1 + 2 = (m + 2) + 1 := by omega
      rw [h, List.range_succ_eq_map]
      simp [← List.map_drop, ih]

theorem runWindow_eq (g : String) (n : Nat) :
    runWindow g n =
      Turn.system (systemContent g) ::
        (((List.range n).map (fun k => userTurn (k + 1))).drop (n - 2)) := by
  match n with
  | 0 => rfl
  | 1 => rfl
  | (m + 2) =>
      rw [runWindow_ge_two g (m + 2) (by omega)]
      have h1 : m + 2 - 2 = m := by omega
      have h2 : m + 2 - 1 = m + 1 := by omega
      rw [← List.map_drop, h1, range_drop_two, h2]
      simp

/-- C3: appending frames 1, 2, 3, 4 leaves exactly the system turn followed
by the user turns for frames 3 and 4; and for every number of appends the
window has at most 3 turns, the system turn in front, followed by only the
(at most 2) most recent user turns in oldest-first order. -/
theorem C3_context_window :
    (∀ g, runWindow g 4 =
        [Turn.system (systemContent g), userTurn 3, userTurn 4]) ∧
    (∀ g n, (runWindow g n).length ≤ 3 ∧
        runWindow g n =
          Turn.system (systemContent g) ::
            (((List.range n).map (fun k => userTurn (k + 1))).drop (n - 2))) := by
  constructor
  · intro g
    exact runWindow_ge_two g 4 (by omega)
  · intro g n
    refine ⟨?_, runWindow_eq g n⟩
    rw [runWindow_eq]
    simp [List.length_drop]
    omega

theorem appendLogSession_lastFrame_le (s : Session) (now : Nat) (fn : Option Nat) :
    s.lastFrameNumber ≤ (appendLogSession s now fn).lastFrameNumber := by
  cases fn with
  | none => simp [appendLogSession]
  | some n =>
      simp only [appendLogSession]
      split
      · next h => exact Nat.le_of_lt h
      · exact Nat.le_refl _

/-- C5: the session's `last_frame_number` never regresses across `append_log`
calls: a single call can only increase it, it is bumped exactly when the
carried frame index is strictly greater (the guarded compare-and-update),
and over any sequence of calls it is monotonically non-decreasing. -/
theorem C5_last_frame_monotone :
    (∀ (s : Session) (now : Nat) (fn : Option Nat),
        s.lastFrameNumber ≤ (appendLogSession s now fn).lastFrameNumber) ∧
    (∀ (s : Session) (now n : Nat),
        (appendLogSession s now (some n)).lastFrameNumber =
          if s.lastFrameNumber < n then n else s.lastFrameNumber) ∧
    (∀ (st : Store) (calls : List (Nat × String × Option Nat × Bool)),
        st.session.lastFrameNumber ≤ (appendLogSeq st calls).session.lastFrameNumber) := by
  refine ⟨appendLogSession_lastFrame_le, ?_, ?_⟩
  · intro s now n
    simp only [appendLogSession]
    split <;> simp_all
  · intro st calls
    induction calls generalizing st with
    | nil => exact Nat.le_refl _
    | cons c cs ih =>
        calc st.session.lastFrameNumber
            ≤ (appendLog st c.1 c.2.1 c.2.2.1 c.2.2.2).session.lastFrameNumber :=
              appendLogSession_lastFrame_le _ _ _
          _ ≤ (appendLogSeq (appendLog st c.1 c.2.1 c.2.2.1 c.2.2.2) cs).session.lastFrameNumber :=
              ih _
          _ = (appendLogSeq st (c :: cs)).session.lastFrameNumber := rfl

/-- C10: every `append_log` call creates exactly one log row carrying the
given frame number, message and alert flag; with no frame number the session
row only gets its `updated_at` bumped (all other fields unchanged); with a
frame number that is not strictly greater than the stored
`last_frame_number`, the log row is still created while the session row is
left entirely unchanged. -/
theorem C10_append_log_effects :
    ∀ (st : Store) (now : Nat) (msg : String) (fn : Option Nat) (alert : Bool),
      (appendLog st now msg fn alert).logs = st.logs ++ [⟨fn, msg, alert⟩] ∧
      (fn = none →
        (appendLog st now msg fn alert).session = { st.session with updatedAt := now }) ∧
      (∀ n, fn = some n → ¬ st.session.lastFrameNumber < n →
        (appendLog st now msg fn alert).session = st.session) := by
  intro st now msg fn alert
  refine ⟨rfl, ?_, ?_⟩
  · rintro rfl
    rfl
  · rintro n rfl h
    simp [appendLog, appendLogSession, h]

theorem C10_witness :
    (¬ storeEx.session.lastFrameNumber < 5) ∧
    (appendLog storeEx 9 ("m") (some 5) false).session = storeEx.session :=
  ⟨by decide, (C10_append_log_effects storeEx 9 ("m") (some 5) false).2.2 5 rfl (by decide)⟩

/-- C9: for every session id, at most one monitoring loop is active at a
time: of two consecutive `start_if_needed` calls for the same id the first
launches a thread and the second is a no-op, and the `finally` pop on loop
exit removes the id so that a later call can launch a fresh loop.  Both
operations run under the registry's single lock in the source, which is what
justifies modelling each as one atomic step. -/
theorem C9_registry_single_loop (reg : Registry) (sid : Nat) (h : sid ∉ reg.active) :
    (startIfNeeded reg sid).2 = true ∧
    (startIfNeeded (startIfNeeded reg sid).1 sid).2 = false ∧
    (startIfNeeded (startIfNeeded reg sid).1 sid).1 = (startIfNeeded reg sid).1 ∧
    sid ∉ (runAndCleanupPop (startIfNeeded reg sid).1 sid).active ∧
    (startIfNeeded (runAndCleanupPop (startIfNeeded reg sid).1 sid) sid).2 = true := by
  simp [startIfNeeded, runAndCleanupPop, h, List.erase_cons_head]

theorem C9_witness :
    (0 : Nat) ∉ (Registry.mk []).active ∧ (startIfNeeded ⟨[]⟩ 0).2 = true :=
  ⟨by decide, (C9_registry_single_loop ⟨[]⟩ 0 (by decide)).1⟩

/-- C8: the event classifier is a pure, deterministic function of the reply
text, true exactly when the lower-cased reply contains `"yes"` or
`"event detected"` as a substring; in particular it is true on
`"Yes, the event happened"`, false on `"No change observed"` and true on
`"EVENT DETECTED at frame 12"`. -/
theorem C8_event_classifier :
    (∀ s : String,
        decideEvent s = true ↔
          (("yes").data <:+: lowerChars s.data ∨
            ("event detected").data <:+: lowerChars s.data)) ∧
    decideEvent ("Yes, the event happened") = true ∧
    decideEvent ("No change observed") = false ∧
    decideEvent ("EVENT DETECTED at frame 12") = true := by
  refine ⟨fun s => ?_, by decide, by decide, by decide⟩
  simp [decideEvent, Bool.or_eq_true, containsSub_iff]

@[simp] theorem appendLogSession_status (s : Session) (now : Nat) (fn : Option Nat) :
    (appendLogSession s now fn).status = s.status := by
  cases fn with
  | none => rfl
  | some n =>
      simp only [appendLogSession]
      split <;> rfl

@[simp] theorem appendLogSession_eventDetected (s : Session) (now : Nat) (fn : Option Nat) :
    (appendLogSession s now fn).eventDetected = s.eventDetected := by
  cases fn with
  | none => rfl
  | some n =>
      simp only [appendLogSession]
      split <;> rfl

@[simp] theorem appendLogSession_errorMessage (s : Session) (now : Nat) (fn : Option Nat) :
    (appendLogSession s now fn).errorMessage = s.errorMessage := by
  cases fn with
  | none => rfl
  | some n =>
      simp only [appendLogSession]
      split <;> rfl

@[simp] theorem waitSess_status (w : WaitEnd) (i : Nat) (sess : Session) :
    (waitSess w i sess).status = sess.status := by
  cases w <;> simp [waitSess]

@[simp] theorem waitSess_eventDetected (w : WaitEnd) (i : Nat) (sess : Session) :
    (waitSess w i sess).eventDetected = sess.eventDetected := by
  cases w <;> simp [waitSess]

@[simp] theorem waitSess_errorMessage (w : WaitEnd) (i : Nat) (sess : Session) :
    (waitSess w i sess).errorMessage = sess.errorMessage := by
  cases w <;> simp [waitSess]

@[simp] theorem inferRetry_status (i : Nat) (ts : List String) :
    ∀ sess : Session, (inferRetry i ts sess).2.status = sess.status := by
  induction ts with
  | nil => intro sess; rfl
  | cons e ts ih => intro sess; simp [inferRetry, ih]

@[simp] theorem inferRetry_eventDetected (i : Nat) (ts : List String) :
    ∀ sess : Session, (inferRetry i ts sess).2.eventDetected = sess.eventDetected := by
  induction ts with
  | nil => intro sess; rfl
  | cons e ts ih => intro sess; simp [inferRetry, ih]

@[simp] theorem inferRetry_errorMessage (i : Nat) (ts : List String) :
    ∀ sess : Session, (inferRetry i ts sess).2.errorMessage = sess.errorMessage := by
  induction ts with
  | nil => intro sess; rfl
  | cons e ts ih => intro sess; simp [inferRetry, ih]

@[simp] theorem inferRetry_count_request (i : Nat) (ts : List String) :
    ∀ sess : Session, ((inferRetry i ts sess).1).countP isRequestEv = ts.length + 1 := by
  induction ts with
  | nil => intro sess; rfl
  | cons e ts ih =>
      intro sess
      simp [inferRetry, List.countP_cons, isRequestEv, ih]

theorem inferRetry_sleep_two (i : Nat) (ts : List String) :
    ∀ sess : Session, ((inferRetry i ts sess).1).all sleepTwoOk = true := by
  induction ts with
  | nil => intro sess; rfl
  | cons e ts ih =>
      intro sess
      simp [inferRetry, List.all_cons, sleepTwoOk, ih]

theorem inferRetry_no_status (i : Nat) (ts : List String) :
    ∀ sess : Session, ((inferRetry i ts sess).1).all (fun e => !isStatusEv e) = true := by
  induction ts with
  | nil => intro sess; rfl
  | cons e ts ih =>
      intro sess
      simp only [inferRetry, List.all_cons, Bool.and_eq_true]
      exact ⟨rfl, rfl, rfl, ih _⟩

theorem no_terminal_of_no_status (l : List Ev) (h : l.all (fun e => !isStatusEv e) = true) :
    l.all (fun e => !isTerminalEv e) = true := by
  simp only [List.all_eq_true] at h ⊢
  intro e he
  have hs := h e he
  cases e <;> simp_all [isStatusEv, isTerminalEv]

theorem afterTerminal_append (a b : List Ev) :
    afterTerminal (a ++ b) =
      match afterTerminal a with
      | some r => some (r ++ b)
      | none => afterTerminal b := by
  induction a with
  | nil => simp [afterTerminal]
  | cons e a ih =>
      cases h : isTerminalEv e <;> simp [afterTerminal, h, ih]

theorem afterTerminal_of_no_terminal (l : List Ev)
    (h : l.all (fun e => !isTerminalEv e) = true) : afterTerminal l = none := by
  induction l with
  | nil => rfl
  | cons e l ih =>
      simp only [List.all_cons, Bool.and_eq_true, Bool.not_eq_true'] at h
      simp [afterTerminal, h.1, ih (by simpa using h.2)]

theorem waitEvs_no_terminal (w : WaitEnd) (i : Nat) :
    (waitEvs w i).all (fun e => !isTerminalEv e) = true := by
  cases w <;> rfl

@[simp] theorem afterTerminal_waitEvs (w : WaitEnd) (i : Nat) :
    afterTerminal (waitEvs w i) = none := by
  cases w <;> rfl

@[simp] theorem afterTerminal_inferRetry (i : Nat) (ts : List String) (sess : Session) :
    afterTerminal ((inferRetry i ts sess).1) = none :=
  afterTerminal_of_no_terminal _ (no_terminal_of_no_status _ (inferRetry_no_status i ts sess))

theorem frameLoop_afterTerminal (scripts : List FrameScript) :
    ∀ (i : Nat) (first : Bool) (conv : List Turn) (sess : Session) (alive : Bool),
      ((frameLoop scripts i first conv sess alive).raised ≠ none →
          afterTerminal (frameLoop scripts i first conv sess alive).evs = none) ∧
      ((frameLoop scripts i first conv sess alive).raised = none →
          afterTerminal (frameLoop scripts i first conv sess alive).evs = some [] ∨
            afterTerminal (frameLoop scripts i first conv sess alive).evs =
              some [Ev.log none completedMsg false]) := by
  induction scripts with
  | nil =>
      intro i first conv sess alive
      constructor
      · intro h
        simp [frameLoop] at h
      · intro _
        right
        simp [frameLoop, afterTerminal, isTerminalEv]
  | cons s rest ih =>
      intro i first conv sess alive
      cases hf : s.fileExists with
      | false =>
          constructor
          · intro h
            simp [frameLoop, hf] at h
          · intro _
            right
            simp [frameLoop, hf, afterTerminal_append, afterTerminal, isTerminalEv]
      | true =>
          cases hinf : s.infer with
          | error e =>
              constructor
              · intro _
                simp [frameLoop, hf, hinf, afterTerminal_append, afterTerminal, isTerminalEv]
              · intro h
                simp [frameLoop, hf, hinf] at h
          | ok reply =>
              cases hd : decideEvent reply with
              | true =>
                  constructor
                  · intro h
                    simp [frameLoop, hf, hinf, hd] at h
                  · intro _
                    left
                    simp [frameLoop, hf, hinf, hd, afterTerminal_append, afterTerminal,
                      isTerminalEv]
              | false =>
                  constructor
                  · intro h
                    simp only [frameLoop, hf, hinf, hd, withPre] at h ⊢
                    simp [afterTerminal_append, afterTerminal, isTerminalEv] at h ⊢
                    exact (ih _ _ _ _ _).1 h
                  · intro h
                    simp only [frameLoop, hf, hinf, hd, withPre] at h ⊢
                    simp [afterTerminal_append, afterTerminal, isTerminalEv] at h ⊢
                    exact (ih _ _ _ _ _).2 h

theorem stopProc_closing (a b c : Bool) : ((stopProc a b c).1).all closingEv = true := by
  cases a <;> cases b <;> cases c <;> rfl

theorem stopProc_no_logs (a b c : Bool) : ((stopProc a b c).1).countP isLogEv = 0 := by
  cases a <;> cases b <;> cases c <;> rfl

@[simp] theorem afterTerminal_preLoopEvs (url : String) :
    afterTerminal (preLoopEvs url) = none := rfl

theorem handledPart_afterTerminal (env : Env) (sess0 : Session) :
    ∃ t, afterTerminal (handledPart env sess0).1 = some t ∧
      t.all closingEv = true ∧ t.countP isLogEv ≤ 1 := by
  cases hc : env.clientOk with
  | error e =>
      exact ⟨[Ev.log none (failedMsg e) false],
        by simp [handledPart, tryBlock, hc, afterTerminal, isTerminalEv],
        by simp [closingEv],
        by simp [List.countP_cons, isLogEv]⟩
  | ok u =>
      cases hr : env.resolve with
      | error e =>
          exact ⟨[Ev.log none (failedMsg e) false],
            by simp [handledPart, tryBlock, hc, hr, afterTerminal, isTerminalEv],
            by simp [closingEv],
            by simp [List.countP_cons, isLogEv]⟩
      | ok url =>
          have key := frameLoop_afterTerminal env.scripts 1 false
            [Turn.system (systemContent sess0.goal)] (preLoopSess (initSess sess0) url) true
          cases hraised : (frameLoop env.scripts 1 false
              [Turn.system (systemContent sess0.goal)]
              (preLoopSess (initSess sess0) url) true).raised with
          | some e =>
              have hnone := key.1 (by simp [hraised])
              exact ⟨[Ev.log none (failedMsg e) false],
                by simp [handledPart, tryBlock, hc, hr, withPre, hraised,
                  afterTerminal_append, hnone, afterTerminal, isTerminalEv],
                by simp [closingEv],
                by simp [List.countP_cons, isLogEv]⟩
          | none =>
              rcases key.2 hraised with h | h
              · exact ⟨[],
                  by simp [handledPart, tryBlock, hc, hr, withPre, hraised,
                    afterTerminal_append, h],
                  by simp, by simp⟩
              · exact ⟨[Ev.log none completedMsg false],
                  by simp [handledPart, tryBlock, hc, hr, withPre, hraised,
                    afterTerminal_append, h],
                  by simp [closingEv],
                  by simp [List.countP_cons, isLogEv]⟩

theorem monitoringLoop_afterTerminal (env : Env) (sess0 : Session) :
    ∃ t, afterTerminal (monitoringLoop env sess0).evs = some t ∧
      t.all closingEv = true ∧ t.countP isLogEv ≤ 2 := by
  obtain ⟨t0, h1, h2, h3⟩ := handledPart_afterTerminal env sess0
  refine ⟨t0 ++ ((stopProc (tryBlock env (initSess sess0) sess0.goal).1
      (tryBlock env (initSess sess0) sess0.goal).2.procAlive env.stopGrace).1 ++
      [Ev.log none stoppedMsg false]), ?_, ?_, ?_⟩
  · simp [monitoringLoop, afterTerminal, isTerminalEv, afterTerminal_append, h1]
  · simp [List.all_append, h2, stopProc_closing, closingEv]
  · simp [List.countP_append, stopProc_no_logs, List.countP_cons, isLogEv]
    omega

theorem closingEv_not_status (e : Ev) (h : closingEv e = true) : isStatusEv e = false := by
  cases e <;> first
    | rfl
    | simp [closingEv] at h

/-- C1 (amended): every run writes a terminal status, and after the first
terminal status write the only further events are closing ones — process
cleanup signals and at most two session-level, frame-less, non-alert log
appends (the completion/failure narration and the final "Monitoring
stopped." entry).  The claim as frozen — the terminal status update is the
session's last write, every log append preceding it — fails on the code:
see the counterexample. -/
theorem C1_terminal_then_only_closing :
    ∀ (env : Env) (sess0 : Session), ∃ t,
      afterTerminal (monitoringLoop env sess0).evs = some t ∧
      t.all closingEv = true ∧ t.countP isLogEv ≤ 2 :=
  monitoringLoop_afterTerminal

/-- C1 counterexample: in the concrete run of `envEx` (resolution succeeds,
no frame ever appears) log entries are appended after the terminal
`completed` status write — the completion narration and the final
"Monitoring stopped." entry — so the terminal status update is not the last
write for the session. -/
theorem C1_counterexample :
    logAfterTerminal (monitoringLoop envEx sessEx).evs = true := by decide

/-- C2 (amended): within one run, `completed` and `error` are final — no
status write follows the first terminal status write of a run — but
terminality does not survive a later start: `start_if_needed` launches a
fresh loop for any session id with no registered thread, regardless of the
stored status, and every run's first write unconditionally resets the
session to `running`, so a terminal session can be resumed.  The claim as
frozen fails on the code: see the counterexample. -/
theorem C2_terminal_within_run :
    (∀ (env : Env) (sess0 : Session), ∃ t,
        afterTerminal (monitoringLoop env sess0).evs = some t ∧
        t.all (fun e => !isStatusEv e) = true) ∧
    (∀ (reg : Registry) (sid : Nat), sid ∉ reg.active → (startIfNeeded reg sid).2 = true) ∧
    (∀ (env : Env) (sess0 : Session),
        (monitoringLoop env sess0).evs.head? = some (Ev.setStatus Status.running)) := by
  refine ⟨?_, ?_, ?_⟩
  · intro env sess0
    obtain ⟨t, h1, h2, _⟩ := monitoringLoop_afterTerminal env sess0
    refine ⟨t, h1, ?_⟩
    simp only [List.all_eq_true] at h2 ⊢
    intro e he
    simp [closingEv_not_status e (h2 e he)]
  · intro reg sid h
    simp [startIfNeeded, h]
  · intro env sess0
    rfl

/-- C2 counterexample: `sessDone` is a completed session, yet
`start_if_needed` on a registry with no thread for the id launches a new
loop, and the loop's first session write sets the status back to `running` —
the session leaves the terminal state. -/
theorem C2_counterexample :
    sessDone.status = Status.completed ∧
    (startIfNeeded ⟨[]⟩ 7).2 = true ∧
    (monitoringLoop envEx sessDone).evs.head? = some (Ev.setStatus Status.running) ∧
    (initSess sessDone).status = Status.running :=
  ⟨rfl, by decide, rfl, rfl⟩

theorem C2_witness :
    7 ∉ (Registry.mk []).active ∧ (startIfNeeded ⟨[]⟩ 7).2 = true :=
  ⟨by decide, C2_terminal_within_run.2.1 ⟨[]⟩ 7 (by decide)⟩

@[simp] theorem initSess_status (sess0 : Session) :
    (initSess sess0).status = Status.running := by
  simp [initSess]

@[simp] theorem initSess_eventDetected (sess0 : Session) :
    (initSess sess0).eventDetected = false := by
  simp [initSess]

@[simp] theorem initSess_errorMessage (sess0 : Session) :
    (initSess sess0).errorMessage = "" := by
  simp [initSess]

@[simp] theorem preLoopSess_status (sessF : Session) (url : String) :
    (preLoopSess sessF url).status = sessF.status := by
  simp [preLoopSess]

@[simp] theorem preLoopSess_eventDetected (sessF : Session) (url : String) :
    (preLoopSess sessF url).eventDetected = sessF.eventDetected := by
  simp [preLoopSess]

@[simp] theorem preLoopSess_errorMessage (sessF : Session) (url : String) :
    (preLoopSess sessF url).errorMessage = sessF.errorMessage := by
  simp [preLoopSess]

@[simp] theorem completeSess_status (sess : Session) :
    (completeSess sess).status = Status.completed := by
  simp [completeSess]

@[simp] theorem completeSess_eventDetected (sess : Session) :
    (completeSess sess).eventDetected = sess.eventDetected := by
  simp [completeSess]

@[simp] theorem completeSess_errorMessage (sess : Session) :
    (completeSess sess).errorMessage = sess.errorMessage := by
  simp [completeSess]

@[simp] theorem detectSess_status (sess : Session) :
    (detectSess sess).status = Status.completed := rfl

@[simp] theorem detectSess_errorMessage (sess : Session) :
    (detectSess sess).errorMessage = sess.errorMessage := rfl

theorem stopProc_snd_false (a b c : Bool) : (stopProc a b c).2 = false := by
  cases a <;> cases b <;> cases c <;> rfl

theorem stopProc_no_requests (a b c : Bool) :
    ((stopProc a b c).1).countP isRequestEv = 0 := by
  cases a <;> cases b <;> cases c <;> rfl

theorem monitoringLoop_getLast (env : Env) (sess0 : Session) :
    (monitoringLoop env sess0).evs.getLast? = some (Ev.log none stoppedMsg false) := by
  have h : (monitoringLoop env sess0).evs =
      (Ev.setStatus Status.running :: Ev.log none fetchingMsg false ::
        ((handledPart env sess0).1 ++
          (stopProc (tryBlock env (initSess sess0) sess0.goal).1
              (tryBlock env (initSess sess0) sess0.goal).2.procAlive env.stopGrace).1)) ++
        [Ev.log none stoppedMsg false] := by
    simp [monitoringLoop]
  rw [h, List.getLast?_concat]

/-- C7: cleanup runs unconditionally on every exit path of the loop: the
trace always ends with the `finally` stretch — the stop of the capture
process followed by the final "Monitoring stopped." log entry — and the
process is never left running; the stop step sends terminate, waits at most
5 seconds and kills only if the grace period expires, and it sends no
signal at all when the process already exited or was never started. -/
theorem C7_cleanup_unconditional :
    (∀ (env : Env) (sess0 : Session),
        (monitoringLoop env sess0).evs.getLast? = some (Ev.log none stoppedMsg false) ∧
        (monitoringLoop env sess0).procAlive = false ∧
        ∃ pre started aliveAtExit,
          (monitoringLoop env sess0).evs =
            pre ++ (stopProc started aliveAtExit env.stopGrace).1 ++
              [Ev.log none stoppedMsg false]) ∧
    (∀ grace alive : Bool, stopProc false alive grace = ([], false) ∧
        stopProc true false grace = ([], false)) ∧
    stopProc true true true = ([Ev.terminate, Ev.waitProc 5], false) ∧
    stopProc true true false = ([Ev.terminate, Ev.waitProc 5, Ev.kill], false) := by
  refine ⟨?_, ?_, rfl, rfl⟩
  · intro env sess0
    refine ⟨monitoringLoop_getLast env sess0, ?_, ?_⟩
    · simp [monitoringLoop, stopProc_snd_false]
    · refine ⟨Ev.setStatus Status.running :: Ev.log none fetchingMsg false ::
        (handledPart env sess0).1,
        (tryBlock env (initSess sess0) sess0.goal).1,
        (tryBlock env (initSess sess0) sess0.goal).2.procAlive, ?_⟩
      simp [monitoringLoop, List.append_assoc]
  · intro grace alive
    cases alive <;> exact ⟨rfl, rfl⟩

theorem not_mem_of_all_not_status (l : List Ev)
    (h : l.all (fun e => !isStatusEv e) = true) (st : Status) : Ev.setStatus st ∉ l := by
  intro hm
  simp only [List.all_eq_true] at h
  have hx := h _ hm
  simp [isStatusEv] at hx

theorem setStatus_not_mem_waitEvs (st : Status) (w : WaitEnd) (i : Nat) :
    Ev.setStatus st ∉ waitEvs w i := by
  cases w <;> simp [waitEvs]

theorem setStatus_not_mem_inferRetry (st : Status) (i : Nat) (ts : List String)
    (sess : Session) : Ev.setStatus st ∉ (inferRetry i ts sess).1 :=
  not_mem_of_all_not_status _ (inferRetry_no_status i ts sess) st

theorem frameLoop_exhaust (last : FrameScript) (hlast : last.fileExists = false) :
    ∀ (pre : List FrameScript), (∀ s ∈ pre, goodFrame s) →
      ∀ (i : Nat) (first : Bool) (conv : List Turn) (sess : Session) (alive : Bool),
      (frameLoop (pre ++ [last]) i first conv sess alive).raised = none ∧
      (frameLoop (pre ++ [last]) i first conv sess alive).sess.status = Status.completed ∧
      (frameLoop (pre ++ [last]) i first conv sess alive).sess.eventDetected =
        sess.eventDetected ∧
      Ev.setStatus Status.error ∉ (frameLoop (pre ++ [last]) i first conv sess alive).evs ∧
      Ev.log (some (i + pre.length)) (waitEndMsg last.wait) false ∈
        (frameLoop (pre ++ [last]) i first conv sess alive).evs := by
  intro pre
  induction pre with
  | nil =>
      intro _ i first conv sess alive
      have hw : last.wait ≠ WaitEnd.found := by
        intro h
        simp [FrameScript.fileExists, h] at hlast
      refine ⟨?_, ?_, ?_, ?_, ?_⟩
      · simp [frameLoop, hlast]
      · simp [frameLoop, hlast]
      · simp [frameLoop, hlast]
      · cases hwt : last.wait with
        | found => exact absurd hwt hw
        | procDied => simp [frameLoop, hlast, hwt, waitEvs]
        | timedOut => simp [frameLoop, hlast, hwt, waitEvs]
      · cases hwt : last.wait with
        | found => exact absurd hwt hw
        | procDied => simp [frameLoop, hlast, hwt, waitEvs, waitEndMsg]
        | timedOut => simp [frameLoop, hlast, hwt, waitEvs, waitEndMsg]
  | cons s pre ih =>
      intro hgood i first conv sess alive
      obtain ⟨hf, r, hr, hdr⟩ := hgood s (List.mem_cons_self s pre)
      have hpre : ∀ x ∈ pre, goodFrame x := fun x hx => hgood x (List.mem_cons_of_mem s hx)
      refine ⟨?_, ?_, ?_, ?_, ?_⟩
      · simp only [List.cons_append]
        simp [frameLoop, hf, hr, hdr, withPre]
        exact (ih hpre _ _ _ _ _).1
      · simp only [List.cons_append]
        simp [frameLoop, hf, hr, hdr, withPre]
        exact (ih hpre _ _ _ _ _).2.1
      · simp only [List.cons_append]
        simp [frameLoop, hf, hr, hdr, withPre]
        exact ((ih hpre _ _ _ _ _).2.2.1).trans (by simp)
      · simp only [List.cons_append]
        simp [frameLoop, hf, hr, hdr, withPre, List.mem_append, not_or,
          setStatus_not_mem_waitEvs, setStatus_not_mem_inferRetry]
        exact (ih hpre _ _ _ _ _).2.2.2.1
      · simp only [List.cons_append, List.length_cons]
        have harith : i + (pre.length + 1) = i + 1 + pre.length := by omega
        rw [harith]
        simp only [frameLoop, hf, hr, hdr, withPre]
        simp only [eq_self_iff_true, if_true]
        exact List.mem_append_right _ ((ih hpre _ _ _ _ _).2.2.2.2)

theorem stopProc_no_error (a b c : Bool) :
    Ev.setStatus Status.error ∉ (stopProc a b c).1 := by
  cases a <;> cases b <;> cases c <;> simp [stopProc]

/-- C6: whenever the wait for the next frame ends because the 60-second
deadline elapsed or because the capture process exited, and the awaited
frame file is still absent at the re-check, the run ends as a normal
completion: the informational (non-alert) wait log entry is appended, the
final status is `completed` with `event_detected` false, and the error
state is never entered. -/
theorem C6_exhaustion_completes (env : Env) (sess0 : Session) (url : String)
    (pre : List FrameScript) (last : FrameScript)
    (hc : env.clientOk = Except.ok ()) (hr : env.resolve = Except.ok url)
    (hs : env.scripts = pre ++ [last]) (hlast : last.fileExists = false)
    (hpre : ∀ s ∈ pre, goodFrame s) :
    (monitoringLoop env sess0).sess.status = Status.completed ∧
    (monitoringLoop env sess0).sess.eventDetected = false ∧
    Ev.setStatus Status.error ∉ (monitoringLoop env sess0).evs ∧
    Ev.log (some (1 + pre.length)) (waitEndMsg last.wait) false ∈
      (monitoringLoop env sess0).evs := by
  have key := frameLoop_exhaust last hlast pre hpre 1 false
    [Turn.system (systemContent sess0.goal)] (preLoopSess (initSess sess0) url) true
  refine ⟨?_, ?_, ?_, ?_⟩
  · simp [monitoringLoop, handledPart, tryBlock, hc, hr, hs, withPre, key.1, key.2.1]
  · simp [monitoringLoop, handledPart, tryBlock, hc, hr, hs, withPre, key.1]
    rw [key.2.2.1]
    simp
  · simp [monitoringLoop, handledPart, tryBlock, hc, hr, hs, withPre, key.1, preLoopEvs,
      List.mem_append, not_or, stopProc_no_error]
    exact key.2.2.2.1
  · simp only [monitoringLoop, handledPart, tryBlock, hc, hr, hs, withPre, key.1]
    refine List.mem_cons_of_mem _ (List.mem_cons_of_mem _ ?_)
    exact List.mem_append_left _
      (List.mem_append_left _ (List.mem_append_right _ key.2.2.2.2))

theorem C6_witness :
    ((⟨WaitEnd.timedOut, false, [], Except.ok ("")⟩ : FrameScript).fileExists = false) ∧
    ((monitoringLoop envSix sessEx).sess.status = Status.completed ∧
      (monitoringLoop envSix sessEx).sess.eventDetected = false ∧
      Ev.setStatus Status.error ∉ (monitoringLoop envSix sessEx).evs ∧
      Ev.log (some (1 + [(⟨WaitEnd.found, true, [], Except.ok ("no")⟩ : FrameScript)].length))
          (waitEndMsg WaitEnd.timedOut) false ∈ (monitoringLoop envSix sessEx).evs) :=
  ⟨rfl,
    C6_exhaustion_completes envSix sessEx ("u")
      [⟨WaitEnd.found, true, [], Except.ok ("no")⟩]
      ⟨WaitEnd.timedOut, false, [], Except.ok ("")⟩
      rfl rfl rfl rfl
      (by
        intro s hs
        simp only [List.mem_singleton] at hs
        subst hs
        exact ⟨rfl, "no", rfl, by decide⟩)⟩

/-- C4: the inference request is retried exactly on throttling: every
RateLimitError appends one informational log entry, sleeps the fixed
2-second backoff and reissues the request, indefinitely — any number `n` of
throttles yields `n + 1` requests, with all sleeps equal to 2 and no status
write or error-message change; a frame throttled twice and then answered
issues exactly 3 requests and the whole run records no error (status
`completed`, empty error message); a non-throttling exception is never
retried — the run issues exactly the requests made so far and the session
is driven to the `error` state carrying the exception's text. -/
theorem C4_throttle_backoff :
    (∀ (i : Nat) (ts : List String) (sess : Session),
        ((inferRetry i ts sess).1).countP isRequestEv = ts.length + 1 ∧
        ((inferRetry i ts sess).1).all sleepTwoOk = true ∧
        (inferRetry i ts sess).2.status = sess.status ∧
        (inferRetry i ts sess).2.errorMessage = sess.errorMessage) ∧
    (∀ (i : Nat) (e1 e2 : String) (sess : Session),
        ((inferRetry i [e1, e2] sess).1).countP isRequestEv = 3) ∧
    (∀ (url r e1 e2 : String) (grace : Bool) (sess0 : Session),
        ((monitoringLoop ⟨Except.ok (), Except.ok url,
              [⟨WaitEnd.found, true, [e1, e2], Except.ok r⟩], grace⟩ sess0).evs).countP
            isRequestEv = 3 ∧
        (monitoringLoop ⟨Except.ok (), Except.ok url,
            [⟨WaitEnd.found, true, [e1, e2], Except.ok r⟩], grace⟩ sess0).sess.status =
          Status.completed ∧
        (monitoringLoop ⟨Except.ok (), Except.ok url,
            [⟨WaitEnd.found, true, [e1, e2], Except.ok r⟩], grace⟩ sess0).sess.errorMessage =
          "") ∧
    (∀ (url e : String) (ts : List String) (grace : Bool) (sess0 : Session),
        ((monitoringLoop ⟨Except.ok (), Except.ok url,
              [⟨WaitEnd.found, true, ts, Except.error e⟩], grace⟩ sess0).evs).countP
            isRequestEv = ts.length + 1 ∧
        (monitoringLoop ⟨Except.ok (), Except.ok url,
            [⟨WaitEnd.found, true, ts, Except.error e⟩], grace⟩ sess0).sess.status =
          Status.error ∧
        (monitoringLoop ⟨Except.ok (), Except.ok url,
            [⟨WaitEnd.found, true, ts, Except.error e⟩], grace⟩ sess0).sess.errorMessage = e) := by
  refine ⟨?_, ?_, ?_, ?_⟩
  · intro i ts sess
    exact ⟨inferRetry_count_request i ts sess, inferRetry_sleep_two i ts sess,
      inferRetry_status i ts sess, inferRetry_errorMessage i ts sess⟩
  · intro i e1 e2 sess
    simp [inferRetry_count_request]
  · intro url r e1 e2 grace sess0
    cases hd : decideEvent r <;>
      refine ⟨?_, ?_, ?_⟩ <;>
        simp [monitoringLoop, handledPart, tryBlock, withPre, frameLoop,
          FrameScript.fileExists, hd, preLoopEvs, waitEvs, waitSess, completeSess, detectSess,
          List.countP_append, List.countP_cons, isRequestEv, inferRetry_count_request,
          stopProc_no_requests]
  · intro url e ts grace sess0
    refine ⟨?_, ?_, ?_⟩ <;>
      simp [monitoringLoop, handledPart, tryBlock, withPre, frameLoop,
        FrameScript.fileExists, preLoopEvs, waitEvs, waitSess,
        List.countP_append, List.countP_cons, isRequestEv, inferRetry_count_request,
        stopProc_no_requests]

end CCTV
